import Mathlib

/-!
Shallow embedding of the chrome-devtools-mcp session/transport/dispatch
runtime, translated from the TypeScript sources:

* `server.ts` (src/unnamed/part_001): `createServer`, `registerTool`,
  `getContext`, the per-invocation dispatch pipeline guarded by a `Mutex`;
* `config.ts`: the category toggles of `loadConfig`;
* `transport/stdio.ts` / `transport/http.ts`: `handleMcpRequest`,
  `createNewSession`, `handleHealthCheck`, `handleNotFound` and the
  path router installed by `startHttpTransport`.

External collaborators (the protocol SDK's transport adapters, the browser
driver, `McpResponse.handle`, the tool handlers themselves) are abstracted
as explicit outcome parameters (`Except`), exactly at the interface
boundary the spec assigns them.
-/

namespace ChromeDevtoolsMcp

/-! ## Tool registry (`server.ts` lines 91–180, `config.ts` lines 87–89) -/

/-- Tool categories.  The source enum `ToolCategory` (tools/categories.ts)
has the three toggleable categories used by `registerTool` plus further
categories that no toggle inspects; the latter are collapsed into `other`. -/
inductive ToolCategory where
  | emulation
  | performance
  | network
  | other
deriving DecidableEq, Repr

/-- A tool descriptor: the `name` and `annotations.category` fields of the
source `ToolDefinition` are the only fields the registration logic reads. -/
structure ToolDefinition where
  name : String
  category : ToolCategory
deriving DecidableEq, Repr

/-- The slice of `Config` read by `registerTool` (config.ts lines 39–41). -/
structure Config where
  categoryEmulation : Bool
  categoryPerformance : Bool
  categoryNetwork : Bool
deriving DecidableEq, Repr

/-- The category-toggle slice of the parsed CLI arguments handed to
`loadConfig`; `none` models a yargs option left `undefined`. -/
structure Args where
  categoryEmulation : Option Bool
  categoryPerformance : Option Bool
  categoryNetwork : Option Bool
deriving DecidableEq, Repr

/-- The category-toggle part of `loadConfig` (config.ts lines 87–89):
`categoryEmulation: args.categoryEmulation !== false` and likewise for the
other two toggles, so only an explicit `false` disables a category. -/
def loadConfig (args : Args) : Config where
  categoryEmulation := !(args.categoryEmulation == some false)
  categoryPerformance := !(args.categoryPerformance == some false)
  categoryNetwork := !(args.categoryNetwork == some false)

/-- The filtering head of `registerTool` (server.ts lines 91–109): a tool
whose category is one of the three toggleable ones and whose toggle is
explicitly `false` is skipped; every other tool is registered. -/
def shouldRegisterTool (config : Config) (tool : ToolDefinition) : Bool :=
  if tool.category == ToolCategory.emulation && config.categoryEmulation == false then
    false
  else if tool.category == ToolCategory.performance && config.categoryPerformance == false then
    false
  else if tool.category == ToolCategory.network && config.categoryNetwork == false then
    false
  else
    true

/-- Lexicographic comparison on character lists by code point.  This models
`a.name.localeCompare(b.name) <= 0`: `localeCompare` under a fixed locale is
a total preorder on strings; code-point order is the locale-stable total
order the embedding fixes for it. -/
def lexLe : List Char → List Char → Bool
  | [], _ => true
  | _ :: _, [] => false
  | a :: as, b :: bs =>
    if a.toNat < b.toNat then true
    else if b.toNat < a.toNat then false
    else lexLe as bs

/-- The comparator passed to `tools.sort` (server.ts lines 174–176). -/
def nameLe (a b : ToolDefinition) : Bool :=
  lexLe a.name.data b.name.data

/-- The `tools.sort((a, b) => a.name.localeCompare(b.name))` step of
`createServer` (server.ts lines 174–176), modelled with the stable merge
sort mandated for `Array.prototype.sort`. -/
def sortedTools (tools : List ToolDefinition) : List ToolDefinition :=
  tools.mergeSort nameLe

/-- The registered catalogue produced by `createServer` (server.ts lines
162–180): sort the static definitions by name, then register each tool that
survives the category filter of `registerTool`. -/
def registeredTools (config : Config) (tools : List ToolDefinition) : List ToolDefinition :=
  (sortedTools tools).filter (shouldRegisterTool config)

/-- The ordered list of registered tool names, the catalogue shape visible
to clients enumerating tools. -/
def registeredToolNames (config : Config) (tools : List ToolDefinition) : List String :=
  (registeredTools config tools).map (fun t => t.name)

theorem lexLe_trans : ∀ {as bs cs : List Char},
    lexLe as bs = true → lexLe bs cs = true → lexLe as cs = true := by
  intro as
  induction as with
  | nil => intro bs cs _ _; rfl
  | cons a as ih =>
    intro bs cs h1 h2
    cases bs with
    | nil => simp [lexLe] at h1
    | cons b bs =>
      cases cs with
      | nil => simp [lexLe] at h2
      | cons c cs =>
        simp only [lexLe] at h1 h2 ⊢
        rcases Nat.lt_trichotomy a.toNat b.toNat with hab | hab | hab
        · rcases Nat.lt_trichotomy b.toNat c.toNat with hbc | hbc | hbc
          · rw [if_pos (by omega)]
          · rw [if_pos (by omega)]
          · rw [if_neg (by omega), if_pos (by omega)] at h2
            exact absurd h2 (by simp)
        · rcases Nat.lt_trichotomy b.toNat c.toNat with hbc | hbc | hbc
          · rw [if_pos (by omega)]
          · rw [if_neg (by omega), if_neg (by omega)] at h1 h2 ⊢
            exact ih h1 h2
          · rw [if_neg (by omega), if_pos (by omega)] at h2
            exact absurd h2 (by simp)
        · rw [if_neg (by omega), if_pos (by omega)] at h1
          exact absurd h1 (by simp)

theorem lexLe_total : ∀ (as bs : List Char),
    lexLe as bs = true ∨ lexLe bs as = true := by
  intro as
  induction as with
  | nil => intro bs; left; rfl
  | cons a as ih =>
    intro bs
    cases bs with
    | nil => right; rfl
    | cons b bs =>
      simp only [lexLe]
      rcases Nat.lt_trichotomy a.toNat b.toNat with h | h | h
      · left; rw [if_pos h]
      · rcases ih bs with h' | h'
        · left; rw [if_neg (by omega), if_neg (by omega)]; exact h'
        · right; rw [if_neg (by omega), if_neg (by omega)]; exact h'
      · right; rw [if_pos h]

theorem lexLe_antisymm : ∀ {as bs : List Char},
    lexLe as bs = true → lexLe bs as = true → as = bs := by
  intro as
  induction as with
  | nil =>
    intro bs _ h2
    cases bs with
    | nil => rfl
    | cons b bs => simp [lexLe] at h2
  | cons a as ih =>
    intro bs h1 h2
    cases bs with
    | nil => simp [lexLe] at h1
    | cons b bs =>
      simp only [lexLe] at h1 h2
      rcases Nat.lt_trichotomy a.toNat b.toNat with h | h | h
      · rw [if_neg (by omega), if_pos (by omega)] at h2
        exact absurd h2 (by simp)
      · rw [if_neg (by omega), if_neg (by omega)] at h1 h2
        have ha : a = b := Char.eq_of_val_eq (UInt32.ext h)
        rw [ha, ih h1 h2]
      · rw [if_neg (by omega), if_pos (by omega)] at h1
        exact absurd h1 (by simp)

/-! ## Context resolver (`server.ts` lines 56–89, `getContext`) -/

/-- An `McpContext` as the dispatch pipeline sees it: the `browser` handle
it was built from (handles abstracted as naturals, compared by identity as
`context?.browser !== browser` compares object identity) and an
`instanceId` distinguishing distinct `McpContext.from` results. -/
structure McpContext where
  browser : Nat
  instanceId : Nat
deriving DecidableEq, Repr

/-- The per-ServerInstance memo cell behind `getContext`: the captured
`let context: McpContext` variable (`none` before first resolution) and a
freshness counter supplying `instanceId`s for newly built contexts. -/
structure ContextState where
  context : Option McpContext
  nextId : Nat
deriving DecidableEq, Repr

/-- The body of `getContext` (server.ts lines 56–89).  `resolveBrowser` is
the outcome of `ensureBrowserConnected` / `ensureBrowserLaunched` (external
browser driver; may fail).  On failure the error propagates and the memo
cell is untouched (the TypeScript `context` assignment is never reached, so
a failed attempt is never cached).  On success, if the memoized context's
browser differs from the resolved handle (`context?.browser !== browser`,
also true when no context exists yet) a fresh context is built and
memoized; otherwise the memoized instance is returned unchanged. -/
def getContext (resolveBrowser : Except String Nat) (s : ContextState) :
    Except String (McpContext × ContextState) :=
  match resolveBrowser with
  | .error e => .error e
  | .ok browser =>
    match s.context with
    | some ctx =>
      if ctx.browser ≠ browser then
        let fresh : McpContext := ⟨browser, s.nextId⟩
        .ok (fresh, ⟨some fresh, s.nextId + 1⟩)
      else
        .ok (ctx, s)
    | none =>
      let fresh : McpContext := ⟨browser, s.nextId⟩
      .ok (fresh, ⟨some fresh, s.nextId + 1⟩)

/-! ## Invocation pipeline (`server.ts` lines 117–158, the tool callback) -/

/-- A content item of a `CallToolResult`; the error soft-landing path only
ever produces `text` items, other shapes are irrelevant here. -/
inductive ContentItem where
  | text (s : String)
  | other
deriving DecidableEq, Repr

/-- Events observed while the tool callback runs, used to state where the
Dispatch Guard is acquired and released relative to the rest of the body.
`Mutex.ts` is not among the provided sources; `acquire`/`release` model its
scoped-guard interface from the spec (§4.3): `acquire()` suspends until the
guard is free and `guard.dispose()` releases it. -/
inductive Event where
  | acquire
  | resolveContext
  | runHandler
  | logError (msg : String)
  | release
deriving DecidableEq, Repr

/-- The three fallible stages of one invocation, abstracted at the
interface boundary: `contextResolution` covers `getContext` together with
`context.detectOpenDevToolsWindows()`, `handlerRun` is the tool handler
body, and `finalize` is `response.handle(tool.name, context)`
(`McpResponse` is an external collaborator; the error value carries
`error.message`). -/
structure InvocationBehavior where
  contextResolution : Except String Nat
  handlerRun : Except String Unit
  finalize : Except String (List ContentItem)
deriving Repr

/-- What one invocation yields at the protocol boundary: either a
`CallToolResult` returned to the SDK (`result content isError`), or an
exception re-thrown out of the callback to the transport (`fault`). -/
inductive CallOutcome where
  | result (content : List ContentItem) (isError : Bool)
  | fault (msg : String)
deriving DecidableEq, Repr

/-- The tool callback registered by `registerTool` (server.ts lines
117–158), as outcome plus event trace.  Control flow translated from the
source: acquire the mutex; inside the outer `try`, resolve the context and
run the handler — a failure there is logged and re-thrown (`fault`); inside
the inner `try`, finalize the response — a failure there is converted to a
returned result with `isError := true` and the message as text content; the
`finally` releases the guard on every path. -/
def toolCallback (b : InvocationBehavior) : CallOutcome × List Event :=
  match b.contextResolution with
  | .error e =>
    (.fault e, [.acquire, .resolveContext, .logError e, .release])
  | .ok _ =>
    match b.handlerRun with
    | .error e =>
      (.fault e, [.acquire, .resolveContext, .runHandler, .logError e, .release])
    | .ok _ =>
      match b.finalize with
      | .ok content =>
        (.result content false, [.acquire, .resolveContext, .runHandler, .release])
      | .error e =>
        (.result [.text e] true, [.acquire, .resolveContext, .runHandler, .release])

/-- One step of replaying a trace against a mutex: acquiring a held guard
or releasing a free one is invalid (`none`); other events leave the guard
state alone. -/
def guardStep (held : Bool) : Event → Option Bool
  | .acquire => if held then none else some true
  | .release => if held then some false else none
  | _ => some held

/-- Replay a whole event trace from a given guard state; `none` means the
trace violates mutual exclusion. -/
def guardReplay : List Event → Bool → Option Bool
  | [], held => some held
  | e :: es, held =>
    match guardStep held e with
    | none => none
    | some h => guardReplay es h

/-! ## HTTP transport (`transport/http.ts`) -/

/-- The session registry (`const sessions = new Map<string, Session>()`),
as an association list from session id to the ServerInstance identifier the
session's `Session` record holds (transport adapter and server instance are
abstracted to the instance identifier). -/
abbrev Registry : Type := List (String × Nat)

/-- `sessions.get(sessionId)` on the association-list registry. -/
def lookupSession (reg : Registry) (sid : String) : Option Nat :=
  match reg with
  | [] => none
  | (k, v) :: rest => if k == sid then some v else lookupSession rest sid

/-- An HTTP response body: plain text (`res.end('...')`) or the JSON object
written by `handleHealthCheck`, kept structured (serialization by
`JSON.stringify` is outside the core). -/
inductive Body where
  | text (s : String)
  | json (fields : List (String × String))
deriving DecidableEq, Repr

/-- Observable outcome of routing one HTTP request: a direct status-coded
response, forwarding to an existing session's transport adapter
(`session.transport.handleRequest`), or a request fully handled by a newly
created session's adapter. -/
inductive McpOutcome where
  | response (status : Nat) (body : Body)
  | forwarded (sid : String)
  | handledNew
deriving DecidableEq, Repr

/-- Result of one routed request: the outcome, the registry afterwards, and
the `logger` lines emitted while handling it. -/
structure HttpStep where
  outcome : McpOutcome
  registry : Registry
  logs : List String
deriving Repr

/-- Behaviour of the freshly built `StreamableHTTPServerTransport` and the
`serverInstance.connect` / `transport.handleRequest` calls, abstracted at
the SDK boundary.  Modelled from the spec: the SDK transport adapter is an
external collaborator (§6); per §4.5 the `onsessioninitialized` callback
fires, with the generated `assignedId`, exactly when `handleRequest`
completes the initialization handshake successfully — `handleResult`'s
`Bool` records whether it fired; a failed `connect` or `handleRequest`
means no completed handshake. -/
structure TransportBehavior where
  connectResult : Except String Unit
  handleResult : Except String Bool
  assignedId : String
deriving Repr

/-- Whether the session-initialization callback fires for this behaviour:
both `connect` and `handleRequest` succeed and the handshake completed. -/
def sessionInitFired (tb : TransportBehavior) : Bool :=
  match tb.connectResult, tb.handleResult with
  | .ok _, .ok initialized => initialized
  | _, _ => false

/-- `createNewSession` (http.ts lines 145–174): build a fresh
ServerInstance via the factory (`inst`) and a fresh transport adapter whose
`onsessioninitialized` callback inserts `{transport, server}` into the
registry and logs the new session id; `connect` the instance and hand the
request to the adapter; on failure of either, log the error and respond
HTTP 500 — the callback never fired, so nothing was registered. -/
def createNewSession (tb : TransportBehavior) (inst : Nat) (reg : Registry) : HttpStep :=
  match tb.connectResult with
  | .error e =>
    { outcome := .response 500 (.text "Internal server error")
      registry := reg
      logs := ["HTTP connection error: " ++ e] }
  | .ok _ =>
    match tb.handleResult with
    | .error e =>
      { outcome := .response 500 (.text "Internal server error")
        registry := reg
        logs := ["HTTP connection error: " ++ e] }
    | .ok initialized =>
      if initialized then
        { outcome := .handledNew
          registry := (tb.assignedId, inst) :: reg
          logs := ["New session created: " ++ tb.assignedId] }
      else
        { outcome := .handledNew, registry := reg, logs := [] }

/-- An incoming `/mcp` request as `handleMcpRequest` reads it: the value of
the `mcp-session-id` header if present, and the HTTP method. -/
structure McpRequest where
  sessionId : Option String
  method : String
deriving DecidableEq, Repr

/-- Whether `if (sessionId)` takes the session branch: the header must be
present and, by JavaScript string truthiness, non-empty. -/
def hasTruthySessionId (req : McpRequest) : Bool :=
  match req.sessionId with
  | some sid => sid != ""
  | none => false

/-- `handleMcpRequest` (http.ts lines 111–135): a truthy session id is
looked up — unknown ids get 404 "Session not found" with nothing created,
known ids are forwarded to the session's adapter; with no (truthy) session
id, POST creates a new session via `createNewSession` and anything else
gets 400 "Invalid request". -/
def handleMcpRequest (req : McpRequest) (tb : TransportBehavior) (inst : Nat)
    (reg : Registry) : HttpStep :=
  if hasTruthySessionId req then
    match req.sessionId with
    | some sid =>
      match lookupSession reg sid with
      | none =>
        { outcome := .response 404 (.text "Session not found")
          registry := reg
          logs := [] }
      | some _ =>
        { outcome := .forwarded sid, registry := reg, logs := [] }
    | none =>
      { outcome := .response 400 (.text "Invalid request")
        registry := reg
        logs := [] }
  else if req.method == "POST" then
    createNewSession tb inst reg
  else
    { outcome := .response 400 (.text "Invalid request")
      registry := reg
      logs := [] }

/-- `handleHealthCheck` (http.ts lines 181–189): HTTP 200 with the JSON
object `{status: 'healthy', timestamp: new Date().toISOString()}`; the
current clock reading is the `now` parameter. -/
def handleHealthCheck (now : String) : Nat × Body :=
  (200, .json [("status", "healthy"), ("timestamp", now)])

/-- `handleNotFound` (http.ts lines 196–199). -/
def handleNotFound : Nat × Body :=
  (404, .text "Not Found")

/-- The request router installed by `startHttpTransport` (http.ts lines
80–93): `/mcp` goes to `handleMcpRequest`, `/health` to
`handleHealthCheck` (which never touches the registry), everything else to
`handleNotFound`. -/
def routeRequest (path : String) (req : McpRequest) (tb : TransportBehavior)
    (inst : Nat) (now : String) (reg : Registry) : HttpStep :=
  if path == "/mcp" then
    handleMcpRequest req tb inst reg
  else if path == "/health" then
    { outcome := .response (handleHealthCheck now).1 (handleHealthCheck now).2
      registry := reg
      logs := [] }
  else
    { outcome := .response handleNotFound.1 handleNotFound.2
      registry := reg
      logs := [] }

/-! ## Helper lemmas -/

theorem nameLe_trans (a b c : ToolDefinition) (h1 : nameLe a b = true)
    (h2 : nameLe b c = true) : nameLe a c = true :=
  lexLe_trans h1 h2

theorem nameLe_total (a b : ToolDefinition) : (nameLe a b || nameLe b a) = true := by
  rcases lexLe_total a.name.data b.name.data with h | h <;> simp [nameLe, h]

/-- The string relation induced by the sort comparator. -/
def strLe (x y : String) : Prop :=
  lexLe x.data y.data = true

theorem strLe_antisymm : ∀ {x y : String}, strLe x y → strLe y x → x = y := by
  intro x y h1 h2
  exact String.ext (lexLe_antisymm h1 h2)

theorem registeredTools_pairwise (config : Config) (tools : List ToolDefinition) :
    List.Pairwise (fun a b => nameLe a b = true) (registeredTools config tools) :=
  (List.sorted_mergeSort (fun a b c => nameLe_trans a b c) nameLe_total tools).filter _

theorem registeredToolNames_sorted (config : Config) (tools : List ToolDefinition) :
    List.Sorted strLe (registeredToolNames config tools) :=
  List.pairwise_map.mpr ((registeredTools_pairwise config tools).imp (fun h => h))

theorem registeredTools_perm_of_perm (config : Config)
    {tools tools' : List ToolDefinition} (hperm : tools.Perm tools') :
    (registeredTools config tools).Perm (registeredTools config tools') :=
  (((tools.mergeSort_perm nameLe).trans hperm).trans
    (tools'.mergeSort_perm nameLe).symm).filter _

/-! ## Claim theorems -/

/-- C1: if the tool handler completes normally but finalizing the
accumulated response fails, the invocation returns a protocol-level success
result with `isError = true` whose single text content item carries the
failure's message; if the handler body itself throws before finalization,
the failure is logged and re-raised out of the callback as a transport-level
call fault, not returned as an error-flagged result. -/
theorem toolCallback_finalization_soft_lands_handler_fault_rethrown
    (ctx : Nat) (e : String) (fz : Except String (List ContentItem)) :
    (toolCallback ⟨.ok ctx, .ok (), .error e⟩).1 = .result [.text e] true ∧
    (toolCallback ⟨.ok ctx, .error e, fz⟩).1 = .fault e ∧
    Event.logError e ∈ (toolCallback ⟨.ok ctx, .error e, fz⟩).2 := by
  refine ⟨rfl, rfl, ?_⟩
  simp [toolCallback]

/-- C2: across every behaviour of the fallible stages, the tool callback's
trace acquires the Dispatch Guard first, performs context resolution (and
the handler, when reached) strictly between acquire and release, and
releases exactly once as its final action; replaying the trace against a
free mutex is valid and leaves the mutex free, so a fault in one invocation
never leaves the guard held for subsequent calls and no handler body runs
outside the guarded window. -/
theorem toolCallback_guard_acquired_first_released_once (b : InvocationBehavior) :
    ∃ mid : List Event,
      (toolCallback b).2 = Event.acquire :: (mid ++ [Event.release]) ∧
      Event.acquire ∉ mid ∧
      Event.release ∉ mid ∧
      Event.resolveContext ∈ mid ∧
      guardReplay (toolCallback b).2 false = some false := by
  rcases b with ⟨cr, hr, fz⟩
  rcases cr with e | c
  · exact ⟨[.resolveContext, .logError e], rfl, by simp, by simp, by simp, rfl⟩
  · rcases hr with e | u
    · exact ⟨[.resolveContext, .runHandler, .logError e], rfl, by simp, by simp, by simp, rfl⟩
    · rcases fz with e | content
      · exact ⟨[.resolveContext, .runHandler], rfl, by simp, by simp, by simp, rfl⟩
      · exact ⟨[.resolveContext, .runHandler], rfl, by simp, by simp, by simp, rfl⟩

/-- C3: a request to `/mcp` whose `mcp-session-id` header carries a
(non-empty, hence truthy) session identifier absent from the session
registry yields HTTP 404 "Session not found", creates nothing, logs
nothing, and leaves the registry unchanged, whatever the HTTP method. -/
theorem handleMcpRequest_unknown_session_404 (sid m : String)
    (tb : TransportBehavior) (inst : Nat) (reg : Registry)
    (hne : sid ≠ "") (habs : lookupSession reg sid = none) :
    handleMcpRequest ⟨some sid, m⟩ tb inst reg =
      { outcome := .response 404 (.text "Session not found")
        registry := reg
        logs := [] } := by
  simp [handleMcpRequest, hasTruthySessionId, hne, habs]

theorem handleMcpRequest_unknown_session_404_witness :
    ("deadbeef" : String) ≠ "" ∧
    lookupSession [("cafe", 7)] "deadbeef" = none ∧
    handleMcpRequest ⟨some "deadbeef", "POST"⟩ ⟨.ok (), .ok true, "id"⟩ 3 [("cafe", 7)] =
      { outcome := .response 404 (.text "Session not found")
        registry := [("cafe", 7)]
        logs := [] } :=
  ⟨by decide, by decide,
    handleMcpRequest_unknown_session_404 "deadbeef" "POST" ⟨.ok (), .ok true, "id"⟩ 3
      [("cafe", 7)] (by decide) (by decide)⟩

/-- C4: a request to `/mcp` without a session identifier is handed to
`createNewSession` exactly when the method is POST — building the fresh
ServerInstance and transport adapter — and the registry after session
creation gains an entry exactly when the session-initialization callback
fired (registration happens only through that callback); any other method
yields HTTP 400 "Invalid request" with the registry unchanged and nothing
logged. -/
theorem handleMcpRequest_sessionless (m : String) (tb : TransportBehavior)
    (inst : Nat) (reg : Registry) :
    (handleMcpRequest ⟨none, m⟩ tb inst reg =
        if m == "POST" then createNewSession tb inst reg
        else { outcome := .response 400 (.text "Invalid request")
               registry := reg
               logs := [] }) ∧
    ((createNewSession tb inst reg).registry =
        if sessionInitFired tb then (tb.assignedId, inst) :: reg else reg) ∧
    (m ≠ "POST" →
      handleMcpRequest ⟨none, m⟩ tb inst reg =
        { outcome := .response 400 (.text "Invalid request")
          registry := reg
          logs := [] }) := by
  refine ⟨?_, ?_, ?_⟩
  · by_cases hm : m = "POST"
    · simp [handleMcpRequest, hasTruthySessionId, hm]
    · simp [handleMcpRequest, hasTruthySessionId, hm]
  · rcases tb with ⟨cr, hres, aid⟩
    rcases cr with e | u
    · simp [createNewSession, sessionInitFired]
    · rcases hres with e | initialized
      · simp [createNewSession, sessionInitFired]
      · cases initialized <;> simp [createNewSession, sessionInitFired]
  · intro hm
    simp [handleMcpRequest, hasTruthySessionId, hm]

theorem handleMcpRequest_sessionless_witness :
    ("GET" : String) ≠ "POST" ∧
    handleMcpRequest ⟨none, "GET"⟩ ⟨.ok (), .ok true, "id"⟩ 0 [] =
      { outcome := .response 400 (.text "Invalid request"), registry := [], logs := [] } ∧
    handleMcpRequest ⟨none, "POST"⟩ ⟨.ok (), .ok true, "id"⟩ 0 [] =
      createNewSession ⟨.ok (), .ok true, "id"⟩ 0 [] :=
  ⟨by decide,
    (handleMcpRequest_sessionless "GET" ⟨.ok (), .ok true, "id"⟩ 0 []).2.2 (by decide),
    (handleMcpRequest_sessionless "POST" ⟨.ok (), .ok true, "id"⟩ 0 []).1⟩

/-- C5: routing `/health` yields HTTP 200 with a JSON body holding
`status: "healthy"` and a `timestamp` field, leaves the session registry
unchanged, and produces an outcome independent of the registry (the
handler never reads it), under any registry state including empty. -/
theorem routeRequest_health_200 (req : McpRequest) (tb : TransportBehavior)
    (inst : Nat) (now : String) (reg reg' : Registry) :
    (∃ fields,
      (routeRequest "/health" req tb inst now reg).outcome = .response 200 (.json fields) ∧
      ("status", "healthy") ∈ fields ∧
      ∃ t, ("timestamp", t) ∈ fields) ∧
    (routeRequest "/health" req tb inst now reg).registry = reg ∧
    (routeRequest "/health" req tb inst now reg).outcome =
      (routeRequest "/health" req tb inst now reg').outcome := by
  refine ⟨⟨[("status", "healthy"), ("timestamp", now)], rfl, by simp, now, by simp⟩, rfl, rfl⟩

/-- C6: a tool whose category is one of the three toggleable categories and
whose toggle is explicitly `false` is entirely absent from the registered
catalogue, whatever the input definitions; and each of the three toggles of
`loadConfig` defaults to enabled whenever the corresponding argument is not
explicitly `false`. -/
theorem disabled_category_tool_absent (config : Config)
    (tools : List ToolDefinition) (tool : ToolDefinition) (a : Args) :
    (tool.category = .emulation → config.categoryEmulation = false →
      tool ∉ registeredTools config tools) ∧
    (tool.category = .performance → config.categoryPerformance = false →
      tool ∉ registeredTools config tools) ∧
    (tool.category = .network → config.categoryNetwork = false →
      tool ∉ registeredTools config tools) ∧
    (a.categoryEmulation ≠ some false → (loadConfig a).categoryEmulation = true) ∧
    (a.categoryPerformance ≠ some false → (loadConfig a).categoryPerformance = true) ∧
    (a.categoryNetwork ≠ some false → (loadConfig a).categoryNetwork = true) := by
  refine ⟨?_, ?_, ?_, ?_, ?_, ?_⟩
  · intro h1 h2 hmem
    have := (List.mem_filter.mp hmem).2
    simp [shouldRegisterTool, h1, h2] at this
  · intro h1 h2 hmem
    have := (List.mem_filter.mp hmem).2
    simp [shouldRegisterTool, h1, h2] at this
  · intro h1 h2 hmem
    have := (List.mem_filter.mp hmem).2
    simp [shouldRegisterTool, h1, h2] at this
  · intro h
    simp [loadConfig]
    exact h
  · intro h
    simp [loadConfig]
    exact h
  · intro h
    simp [loadConfig]
    exact h

theorem disabled_category_tool_absent_witness :
    ((⟨"emulate_cpu", ToolCategory.emulation⟩ : ToolDefinition) ∉
      registeredTools ⟨false, true, true⟩ [⟨"emulate_cpu", ToolCategory.emulation⟩]) ∧
    (loadConfig ⟨none, none, none⟩).categoryEmulation = true ∧
    (loadConfig ⟨none, none, none⟩).categoryPerformance = true ∧
    (loadConfig ⟨none, none, none⟩).categoryNetwork = true :=
  ⟨(disabled_category_tool_absent ⟨false, true, true⟩
      [⟨"emulate_cpu", ToolCategory.emulation⟩] ⟨"emulate_cpu", ToolCategory.emulation⟩
      ⟨none, none, none⟩).1 rfl rfl,
   (disabled_category_tool_absent ⟨false, true, true⟩ [] ⟨"x", ToolCategory.other⟩
      ⟨none, none, none⟩).2.2.2.1 (by decide),
   (disabled_category_tool_absent ⟨false, true, true⟩ [] ⟨"x", ToolCategory.other⟩
      ⟨none, none, none⟩).2.2.2.2.1 (by decide),
   (disabled_category_tool_absent ⟨false, true, true⟩ [] ⟨"x", ToolCategory.other⟩
      ⟨none, none, none⟩).2.2.2.2.2 (by decide)⟩

/-- C7: under every configuration and every input order of the static tool
definitions, the registered tool-name list is sorted ascending under the
(locale-stable) string comparison the sort uses; and any two input orders
that are permutations of each other produce the identical ordered
tool-name list, so catalogue assembly is deterministic and idempotent. -/
theorem registeredToolNames_sorted_and_deterministic (config : Config)
    (tools tools' : List ToolDefinition) :
    List.Sorted strLe (registeredToolNames config tools) ∧
    (tools.Perm tools' →
      registeredToolNames config tools = registeredToolNames config tools') := by
  refine ⟨registeredToolNames_sorted config tools, ?_⟩
  intro hperm
  haveI : IsAntisymm String strLe := ⟨fun _ _ h1 h2 => strLe_antisymm h1 h2⟩
  have hp : (registeredToolNames config tools).Perm (registeredToolNames config tools') :=
    (registeredTools_perm_of_perm config hperm).map (fun t : ToolDefinition => t.name)
  exact List.eq_of_perm_of_sorted hp (registeredToolNames_sorted config tools)
    (registeredToolNames_sorted config tools')

theorem registeredToolNames_sorted_and_deterministic_witness :
    ([⟨"b", ToolCategory.other⟩, ⟨"a", ToolCategory.network⟩] :
        List ToolDefinition).Perm
      [⟨"a", ToolCategory.network⟩, ⟨"b", ToolCategory.other⟩] ∧
    registeredToolNames ⟨true, true, true⟩
        [⟨"b", ToolCategory.other⟩, ⟨"a", ToolCategory.network⟩] =
      registeredToolNames ⟨true, true, true⟩
        [⟨"a", ToolCategory.network⟩, ⟨"b", ToolCategory.other⟩] :=
  ⟨by decide,
    (registeredToolNames_sorted_and_deterministic ⟨true, true, true⟩
      [⟨"b", ToolCategory.other⟩, ⟨"a", ToolCategory.network⟩]
      [⟨"a", ToolCategory.network⟩, ⟨"b", ToolCategory.other⟩]).2 (by decide)⟩

/-- C8: within one ServerInstance, a `getContext` call that resolves the
same browser handle as the memoized context returns that very instance
with the memo state untouched (no rebuild); a call resolving a different
handle builds and memoizes a fresh context distinct from the old one; and a
failed connect/launch propagates the error without touching the memo state,
so nothing about the failure is cached and the next call starts from
scratch. -/
theorem getContext_memoizes_and_rebuilds (s : ContextState) (ctx : McpContext)
    (browser : Nat) (e : String) :
    (s.context = some ctx → ctx.browser = browser →
      getContext (.ok browser) s = .ok (ctx, s)) ∧
    (s.context = some ctx → ctx.browser ≠ browser → ctx.instanceId < s.nextId →
      getContext (.ok browser) s =
        .ok (⟨browser, s.nextId⟩, ⟨some ⟨browser, s.nextId⟩, s.nextId + 1⟩) ∧
      (⟨browser, s.nextId⟩ : McpContext) ≠ ctx) ∧
    getContext (.error e) s = .error e := by
  refine ⟨?_, ?_, rfl⟩
  · intro hctx hb
    simp [getContext, hctx, hb]
  · intro hctx hb hid
    refine ⟨by simp [getContext, hctx, hb], ?_⟩
    intro hcontra
    rw [← hcontra] at hid
    simp at hid

theorem getContext_memoizes_and_rebuilds_witness :
    getContext (.ok 5) ⟨some ⟨5, 0⟩, 1⟩ = .ok (⟨5, 0⟩, ⟨some ⟨5, 0⟩, 1⟩) ∧
    (getContext (.ok 7) ⟨some ⟨5, 0⟩, 1⟩ = .ok (⟨7, 1⟩, ⟨some ⟨7, 1⟩, 2⟩) ∧
      (⟨7, 1⟩ : McpContext) ≠ ⟨5, 0⟩) ∧
    getContext (.error "net::ERR_CONNECTION_REFUSED") ⟨some ⟨5, 0⟩, 1⟩ =
      .error "net::ERR_CONNECTION_REFUSED" :=
  ⟨(getContext_memoizes_and_rebuilds ⟨some ⟨5, 0⟩, 1⟩ ⟨5, 0⟩ 5 "x").1 rfl rfl,
   (getContext_memoizes_and_rebuilds ⟨some ⟨5, 0⟩, 1⟩ ⟨5, 0⟩ 7 "x").2.1 rfl
     (by decide) (by decide),
   (getContext_memoizes_and_rebuilds ⟨some ⟨5, 0⟩, 1⟩ ⟨5, 0⟩ 7
     "net::ERR_CONNECTION_REFUSED").2.2⟩

/-- C9: when connecting the fresh server instance to its transport fails,
or handling the initial request fails, `createNewSession` logs the fault,
responds HTTP 500 "Internal server error", and leaves the registry exactly
as it was — in particular the would-be session id is absent from the
registry afterwards whenever it was absent before (creation is atomic with
respect to the registry on error). -/
theorem createNewSession_failure_atomic (e : String) (hres : Except String Bool)
    (aid : String) (inst : Nat) (reg : Registry) :
    (createNewSession ⟨.error e, hres, aid⟩ inst reg =
      { outcome := .response 500 (.text "Internal server error")
        registry := reg
        logs := ["HTTP connection error: " ++ e] }) ∧
    (createNewSession ⟨.ok (), .error e, aid⟩ inst reg =
      { outcome := .response 500 (.text "Internal server error")
        registry := reg
        logs := ["HTTP connection error: " ++ e] }) ∧
    (lookupSession reg aid = none →
      lookupSession (createNewSession ⟨.error e, hres, aid⟩ inst reg).registry aid = none ∧
      lookupSession (createNewSession ⟨.ok (), .error e, aid⟩ inst reg).registry aid = none) := by
  exact ⟨rfl, rfl, fun h => ⟨h, h⟩⟩

theorem createNewSession_failure_atomic_witness :
    lookupSession [("cafe", 7)] "fresh" = none ∧
    createNewSession ⟨.error "ECONNRESET", .ok true, "fresh"⟩ 3 [("cafe", 7)] =
      { outcome := .response 500 (.text "Internal server error")
        registry := [("cafe", 7)]
        logs := ["HTTP connection error: " ++ "ECONNRESET"] } ∧
    lookupSession
      (createNewSession ⟨.error "ECONNRESET", .ok true, "fresh"⟩ 3 [("cafe", 7)]).registry
      "fresh" = none :=
  ⟨by decide,
   (createNewSession_failure_atomic "ECONNRESET" (.ok true) "fresh" 3 [("cafe", 7)]).1,
   ((createNewSession_failure_atomic "ECONNRESET" (.ok true) "fresh" 3
      [("cafe", 7)]).2.2 (by decide)).1⟩

/-- C10: a tool whose category is none of the three toggleable categories
is registered under every configuration — the category toggles can only
remove tools of their own category. -/
theorem non_toggleable_tool_always_registered (config : Config)
    (tools : List ToolDefinition) (tool : ToolDefinition)
    (hmem : tool ∈ tools)
    (h1 : tool.category ≠ .emulation)
    (h2 : tool.category ≠ .performance)
    (h3 : tool.category ≠ .network) :
    tool ∈ registeredTools config tools := by
  refine List.mem_filter.mpr ⟨?_, ?_⟩
  · exact ((tools.mergeSort_perm nameLe).mem_iff).mpr hmem
  · cases hc : tool.category
    · exact absurd hc h1
    · exact absurd hc h2
    · exact absurd hc h3
    · simp [shouldRegisterTool, hc]

theorem non_toggleable_tool_always_registered_witness :
    ((⟨"click", ToolCategory.other⟩ : ToolDefinition) ∈
        ([⟨"click", ToolCategory.other⟩] : List ToolDefinition)) ∧
    (⟨"click", ToolCategory.other⟩ : ToolDefinition) ∈
      registeredTools ⟨false, false, false⟩ [⟨"click", ToolCategory.other⟩] :=
  ⟨by decide,
    non_toggleable_tool_always_registered ⟨false, false, false⟩
      [⟨"click", ToolCategory.other⟩] ⟨"click", ToolCategory.other⟩
      (by decide) (by decide) (by decide) (by decide)⟩

end ChromeDevtoolsMcp
